import Mathlib

/-
Verification development for the libdns/azure provider.

The Go sources are shallowly embedded below:
* strings are Lean `String`s; the Go `strings` helpers used by the code
  (TrimSuffix, TrimPrefix, Split, SplitN, Join on single-character
  separators) are re-implemented over `String.data : List Char`;
* Go `time.Duration` is an `Int` counting nanoseconds, `int64`/`int32`
  record-set fields are `Int`, and the unsigned libdns fields are `Nat`;
  conversions wrap exactly where the Go conversions wrap;
* fallible functions return `Except String` carrying the exact message
  built by the corresponding `fmt.Errorf`; functions that Go returns as a
  (value, error) pair whose value is observed on the error path keep the
  pair shape;
* the remote Azure RecordSets API is an oracle (`AzureBackend`), and each
  provider operation also returns the list of remote calls it issued, in
  order, so that conditional-header and batching behaviour is visible.
-/

/-! ### Go string helpers (single-character separators) -/

/-- Go `strings.TrimSuffix` on `List Char`: drop `t` from the end of `s`
when it is a suffix, otherwise return `s` unchanged. -/
def trimSuffixL (s t : List Char) : List Char :=
  if t <:+ s then s.take (s.length - t.length) else s

/-- Go `strings.TrimSuffix`. -/
def trimSuffix (s t : String) : String := ⟨trimSuffixL s.data t.data⟩

/-- Go `strings.TrimPrefix` on `List Char`. -/
def trimPreL (p s : List Char) : List Char :=
  if p <+: s then s.drop p.length else s

/-- Go `strings.TrimPrefix`. -/
def goTrimPre (p s : String) : String := ⟨trimPreL p.data s.data⟩

/-- Split a character list at every occurrence of `c`; never returns `[]`
(the empty input yields `[[]]`), matching Go `strings.Split` with a
one-character separator. -/
def splitCh (c : Char) : List Char → List (List Char)
  | [] => [[]]
  | x :: xs =>
    match splitCh c xs with
    | [] => [[x]]
    | h :: t => if x = c then [] :: h :: t else (x :: h) :: t

/-- Go `strings.Split s c` for a one-character separator `c`. -/
def goSplit (c : Char) (s : String) : List String :=
  (splitCh c s.data).map String.mk

/-- Join character lists with `c` between consecutive pieces; the inverse
of `splitCh`. -/
def joinCh (c : Char) : List (List Char) → List Char
  | [] => []
  | [x] => x
  | x :: y :: t => x ++ c :: joinCh c (y :: t)

/-- Go `strings.Join xs c` for a one-character separator. -/
def goJoin (c : Char) (xs : List String) : String :=
  ⟨joinCh c (xs.map String.data)⟩

/-- Go `strings.SplitN s c n` for a one-character separator and `n ≥ 1`:
at most `n` pieces, the last piece keeping the unsplit remainder. -/
def goSplitN (c : Char) (n : Nat) (s : String) : List String :=
  let ps := splitCh c s.data
  if ps.length ≤ n then ps.map String.mk
  else (ps.take (n - 1)).map String.mk ++ [⟨joinCh c (ps.drop (n - 1))⟩]

/-! ### Go integer helpers -/

def int64Max : Int := 2 ^ 63 - 1

def int64Min : Int := -(2 ^ 63)

/-- Wrap an unbounded integer into the `int64` range, as Go arithmetic on
`int64`/`time.Duration` does on overflow. -/
def wrap64 (x : Int) : Int := (x + 2 ^ 63) % 2 ^ 64 - 2 ^ 63

/-- Go `time.Duration(s) * time.Second`: seconds to nanoseconds, with
`int64` wrap-around on overflow. -/
def durationOfSeconds (s : Int) : Int := wrap64 (s * 1000000000)

/-- Go `int64(d / time.Second)`: nanoseconds to whole seconds, truncating
toward zero as Go integer division does. -/
def secondsOfDuration (d : Int) : Int := Int.tdiv d 1000000000

/-- Go `uint8(x)` for an `int32` argument: the low 8 bits. -/
def toUint8 (x : Int) : Nat := (x % 256).toNat

/-- Go `uint16(x)` for an `int32` argument: the low 16 bits. -/
def toUint16 (x : Int) : Nat := (x % 65536).toNat

/-- Go `strings.ToUpper` (character-wise upper-casing). -/
def goToUpper (s : String) : String := ⟨s.data.map Char.toUpper⟩

/-- Go `fmt.Sprint` of an `int64`: plain base-10 rendering. -/
def istr (n : Int) : String := toString n

/-- Decimal digits of a candidate integer literal: `true` iff nonempty and
all characters are ASCII digits. -/
def allDigits : List Char → Bool
  | [] => true
  | c :: cs => (48 ≤ c.toNat && c.toNat ≤ 57) && allDigits cs

/-- The sign-stripped digit characters of a candidate base-10 literal. -/
def intDigits (s : String) : List Char :=
  match s.data with
  | '+' :: cs => cs
  | '-' :: cs => cs
  | cs => cs

/-- Whether Go `strconv.ParseInt(s, 10, 64)` accepts the syntax of `s`:
an optional sign followed by at least one ASCII digit. -/
def intSyntaxOk (s : String) : Bool :=
  intDigits s ≠ [] && allDigits (intDigits s)

/-- Numeric value of a digit list (most significant first). -/
def digitsVal : List Char → Nat
  | [] => 0
  | c :: cs => (c.toNat - 48) * 10 ^ cs.length + digitsVal cs

/-- The mathematical value denoted by an integer literal of valid syntax. -/
def intValRaw (s : String) : Int :=
  match s.data with
  | '-' :: _ => -(digitsVal (intDigits s) : Int)
  | _ => (digitsVal (intDigits s) : Int)

/-- Go `strconv.ParseInt(s, 10, 64)`, as the pair (value, ok): on a syntax
error the value is 0; on range overflow the value is clamped to the
nearest `int64` bound; `ok` is `false` in both failure cases. -/
def goParseInt64 (s : String) : Int × Bool :=
  if intSyntaxOk s then
    let v := intValRaw s
    if v > int64Max then (int64Max, false)
    else if v < int64Min then (int64Min, false)
    else (v, true)
  else (0, false)

/-! ### Data model

`NetipCodec` is the boundary to Go `net/netip`: address parsing and
canonical rendering are inputs to the development, with the stability
facts a use needs stated as hypotheses of the theorems that need them. -/

deriving instance DecidableEq for Except

structure NetipCodec (IP : Type) where
  parseAddr : String → Except String IP
  render : IP → String
  is6 : IP → Bool

/-- The normalized libdns record model (libdns v1): one typed variant per
structured kind the provider handles, plus the generic `rr` fallback used
for PTR, SOA and unrecognized types. -/
inductive LibdnsRecord (IP : Type) where
  | address (name : String) (ttl : Int) (ip : IP)
  | caa (name : String) (ttl : Int) (flags : Nat) (tag : String) (value : String)
  | cname (name : String) (ttl : Int) (target : String)
  | mx (name : String) (ttl : Int) (preference : Nat) (target : String)
  | ns (name : String) (ttl : Int) (target : String)
  | srv (service : String) (transport : String) (name : String) (ttl : Int)
      (priority : Nat) (weight : Nat) (port : Nat) (target : String)
  | txt (name : String) (ttl : Int) (text : String)
  | rr (name : String) (rtype : String) (ttl : Int) (data : String)
deriving DecidableEq

structure ARecord where
  ipv4Address : String
deriving DecidableEq

structure AaaaRecord where
  ipv6Address : String
deriving DecidableEq

structure CaaRecord where
  flags : Int
  tag : String
  value : String
deriving DecidableEq

structure CnameRecord where
  cname : String
deriving DecidableEq

structure MxRecord where
  preference : Int
  exchange : String
deriving DecidableEq

structure NsRecord where
  nsdname : String
deriving DecidableEq

structure PtrRecord where
  ptrdname : String
deriving DecidableEq

structure SoaRecord where
  host : String
  email : String
  serialNumber : Int
  refreshTime : Int
  retryTime : Int
  expireTime : Int
  minimumTTL : Int
deriving DecidableEq

structure SrvRecord where
  priority : Int
  weight : Int
  port : Int
  target : String
deriving DecidableEq

structure TxtRecord where
  value : List String
deriving DecidableEq

/-- `armdns.RecordSetProperties`. The `TTL` pointer is modelled as a plain
`Int` (the code always sets it on writes and dereferences it on reads);
payload pointers inside the lists are modelled as values. -/
structure RecordSetProperties where
  ttl : Int
  aRecords : List ARecord := []
  aaaaRecords : List AaaaRecord := []
  caaRecords : List CaaRecord := []
  cnameRecord : Option CnameRecord := none
  mxRecords : List MxRecord := []
  nsRecords : List NsRecord := []
  ptrRecords : List PtrRecord := []
  soaRecord : Option SoaRecord := none
  srvRecords : List SrvRecord := []
  txtRecords : List TxtRecord := []
deriving DecidableEq

/-- `armdns.RecordSet`. `Name`, `Type` and `Etag` are nilable pointers in
Go and stay `Option` here: the normalized-to-Azure converter leaves all
three unset for the caller to fill at write time. -/
structure RecordSet where
  name : Option String := none
  typ : Option String := none
  etag : Option String := none
  properties : RecordSetProperties
deriving DecidableEq

/-- `armdns.RecordType`, the ten-value type enumeration. -/
inductive RecordType where
  | A | AAAA | CAA | CNAME | MX | NS | SRV | TXT | PTR | SOA
deriving DecidableEq

def typeQual : String := "Microsoft.Network/dnszones/"

/-! ### convertStringToRecordType (client.go) -/

/-- Casts a standard type name string to the Azure record-type enumeration;
any string other than the ten supported names is a type error naming the
offending type. -/
def convertStringToRecordType (typeName : String) : Except String RecordType :=
  if typeName = "A" then .ok .A
  else if typeName = "AAAA" then .ok .AAAA
  else if typeName = "CAA" then .ok .CAA
  else if typeName = "CNAME" then .ok .CNAME
  else if typeName = "MX" then .ok .MX
  else if typeName = "NS" then .ok .NS
  else if typeName = "SRV" then .ok .SRV
  else if typeName = "TXT" then .ok .TXT
  else if typeName = "PTR" then .ok .PTR
  else if typeName = "SOA" then .ok .SOA
  else .error ("the type " ++ typeName ++ " cannot be interpreted")

/-! ### Azure record sets to libdns records (client.go) -/

/-- Stands in for the Go panic on a nil pointer dereference; no theorem
below exercises this case. -/
def nilDeref : String := "model: nil pointer dereference"

def srvBadNameMsg (nm : String) : String :=
  "name " ++ nm ++ " does not contain enough fields; expected format: " ++
    "'_service._proto.name' or '_service._proto'"

/-- The per-entry loop bodies of the A and AAAA cases: parse each payload
string as an IP literal, failing on the first malformed literal. -/
def parseAddressRecs (c : NetipCodec IP) (nameO : Option String) (ttl : Int) :
    List String → Except String (List (LibdnsRecord IP))
  | [] => .ok []
  | s :: rest =>
    match c.parseAddr s with
    | .error e => .error ("failed to parse IP address: " ++ e)
    | .ok ip =>
      match nameO with
      | none => .error nilDeref
      | some nm =>
        (parseAddressRecs c nameO ttl rest).map (fun others => .address nm ttl ip :: others)

/-- The per-entry loop bodies of the CAA, MX, NS and PTR cases: one
normalized record per payload entry, sharing the set name and TTL. -/
def mapPayload (nameO : Option String) (f : String → α → LibdnsRecord IP) :
    List α → Except String (List (LibdnsRecord IP))
  | [] => .ok []
  | v :: rest =>
    match nameO with
    | none => .error nilDeref
    | some nm => (mapPayload nameO f rest).map (fun others => f nm v :: others)

/-- The per-entry loop body of the SRV case: the set name is decomposed by
`strings.SplitN(name, ".", 3)`; fewer than two components is an error,
two components mean the zone apex, and with three the third keeps the
remaining suffix; one leading underscore is stripped from the service and
transport components. -/
def srvRecs (nameO : Option String) (ttl : Int) :
    List SrvRecord → Except String (List (LibdnsRecord IP))
  | [] => .ok []
  | v :: rest =>
    match nameO with
    | none => .error nilDeref
    | some nm =>
      match goSplitN '.' 3 nm with
      | [a, b] =>
        (srvRecs nameO ttl rest).map (fun others =>
          .srv (goTrimPre "_" a) (goTrimPre "_" b) "@" ttl
            (toUint16 v.priority) (toUint16 v.weight) (toUint16 v.port) v.target :: others)
      | [a, b, restName] =>
        (srvRecs nameO ttl rest).map (fun others =>
          .srv (goTrimPre "_" a) (goTrimPre "_" b) restName ttl
            (toUint16 v.priority) (toUint16 v.weight) (toUint16 v.port) v.target :: others)
      | _ => .error (srvBadNameMsg nm)

/-- The inner loop of the TXT case: one normalized record per string of one
payload entry. -/
def txtStrings (nameO : Option String) (ttl : Int) :
    List String → Except String (List (LibdnsRecord IP))
  | [] => .ok []
  | s :: rest =>
    match nameO with
    | none => .error nilDeref
    | some nm => (txtStrings nameO ttl rest).map (fun others => .txt nm ttl s :: others)

/-- The outer loop of the TXT case. -/
def txtRecs (nameO : Option String) (ttl : Int) :
    List TxtRecord → Except String (List (LibdnsRecord IP))
  | [] => .ok []
  | v :: rest => do
    let here ← (txtStrings nameO ttl v.value : Except String (List (LibdnsRecord IP)))
    let others ← txtRecs nameO ttl rest
    .ok (here ++ others)

/-- `strings.Join` of the seven SOA fields with single spaces, numeric
fields rendered by `fmt.Sprint`. -/
def soaJoin (host email : String) (n1 n2 n3 n4 n5 : Int) : String :=
  goJoin ' ' [host, email, istr n1, istr n2, istr n3, istr n4, istr n5]

/-- One iteration of the loop of `convertAzureRecordSetsToLibdnsRecords`:
dispatch on the set type with the aggregate prefix stripped, producing the
normalized records of one record set or the error of its case. -/
def convertSet (c : NetipCodec IP) (rs : RecordSet) : Except String (List (LibdnsRecord IP)) :=
  match rs.typ with
  | none => .error nilDeref
  | some ty =>
    let typeName := goTrimPre typeQual ty
    let props := rs.properties
    let ttl := durationOfSeconds props.ttl
    if typeName = "A" then
      parseAddressRecs c rs.name ttl (props.aRecords.map (fun v => v.ipv4Address))
    else if typeName = "AAAA" then
      parseAddressRecs c rs.name ttl (props.aaaaRecords.map (fun v => v.ipv6Address))
    else if typeName = "CAA" then
      mapPayload rs.name
        (fun nm v => .caa nm ttl (toUint8 v.flags) v.tag v.value) props.caaRecords
    else if typeName = "CNAME" then
      match rs.name with
      | none => .error nilDeref
      | some nm =>
        match props.cnameRecord with
        | none => .error nilDeref
        | some v => .ok [.cname nm ttl v.cname]
    else if typeName = "MX" then
      mapPayload rs.name
        (fun nm v => .mx nm ttl (toUint16 v.preference) v.exchange) props.mxRecords
    else if typeName = "NS" then
      mapPayload rs.name (fun nm v => .ns nm ttl v.nsdname) props.nsRecords
    else if typeName = "SRV" then
      srvRecs rs.name ttl props.srvRecords
    else if typeName = "TXT" then
      txtRecs rs.name ttl props.txtRecords
    else if typeName = "PTR" then
      mapPayload rs.name (fun nm v => .rr nm "PTR" ttl v.ptrdname) props.ptrRecords
    else if typeName = "SOA" then
      match props.soaRecord with
      | none => .error nilDeref
      | some v =>
        let soaData := soaJoin v.host v.email v.serialNumber v.refreshTime
          v.retryTime v.expireTime v.minimumTTL
        match rs.name with
        | none => .error nilDeref
        | some nm => .ok [.rr nm "SOA" ttl soaData]
    else .error ("the type " ++ typeName ++ " cannot be interpreted")

/-- Converts Azure-styled record sets to libdns records, as the pair
(records, error) the Go function returns: on any per-set error the whole
batch is aborted and the record list is empty (Go returns `nil` or
`[]libdns.Record{}` together with the error). -/
def convertAzureRecordSetsToLibdnsRecords (c : NetipCodec IP) :
    List RecordSet → List (LibdnsRecord IP) × Option String
  | [] => ([], none)
  | rs :: rest =>
    match convertSet c rs with
    | .error e => ([], some e)
    | .ok recs =>
      match convertAzureRecordSetsToLibdnsRecords c rest with
      | (_, some e) => ([], some e)
      | (others, none) => (recs ++ others, none)

/-! ### libdns records to Azure record sets (client.go) -/

/-- Models `record.RR().Parse()` from the libdns dependency (not in src/).
Modelled from the spec: already-typed records parse back to themselves,
and generic RRs whose type tag names no typed libdns kind (PTR, SOA and
unrecognized types, the cases this provider handles and the theorems
below exercise) pass through unchanged. libdns re-typing of a generic RR
whose uppercased tag is a typed kind (A, AAAA, CAA, CNAME, HTTPS, MX, NS,
SRV, SVCB, TXT) is outside the scope of this model, and every theorem
below stays outside that corner. -/
def RRparse (record : LibdnsRecord IP) : Except String (LibdnsRecord IP) := .ok record

/-- Converts a libdns record to an Azure-styled record set. The `Name`,
`Type` and `Etag` fields are left unset for the caller to fill at write
time. On an unsupported type the Go function returns the zero
`armdns.RecordSet{}` with an error; the model returns only the error. -/
def convertLibdnsRecordToAzureRecordSet (c : NetipCodec IP) (record : LibdnsRecord IP) :
    Except String RecordSet :=
  match RRparse record with
  | .error e => .error ("unable to parse libdns.RR: " ++ e)
  | .ok rec0 =>
    match rec0 with
    | .address _ ttl ip =>
      if c.is6 ip then
        .ok { properties := { ttl := secondsOfDuration ttl, aaaaRecords := [⟨c.render ip⟩] } }
      else
        .ok { properties := { ttl := secondsOfDuration ttl, aRecords := [⟨c.render ip⟩] } }
    | .caa _ ttl flags tag value =>
      .ok { properties := { ttl := secondsOfDuration ttl, caaRecords := [⟨(flags : Int), tag, value⟩] } }
    | .cname _ ttl target =>
      .ok { properties := { ttl := secondsOfDuration ttl, cnameRecord := some ⟨target⟩ } }
    | .mx _ ttl preference target =>
      .ok { properties := { ttl := secondsOfDuration ttl, mxRecords := [⟨(preference : Int), target⟩] } }
    | .ns _ ttl target =>
      .ok { properties := { ttl := secondsOfDuration ttl, nsRecords := [⟨target⟩] } }
    | .srv _ _ _ ttl priority weight port target =>
      .ok { properties := { ttl := secondsOfDuration ttl, srvRecords := [⟨(priority : Int), (weight : Int), (port : Int), target⟩] } }
    | .txt _ ttl text =>
      .ok { properties := { ttl := secondsOfDuration ttl, txtRecords := [⟨[text]⟩] } }
    | .rr _ rtype ttl data =>
      let up := goToUpper rtype
      if up = "PTR" then
        .ok { properties := { ttl := secondsOfDuration ttl, ptrRecords := [⟨data⟩] } }
      else if up = "SOA" then
        let values := goSplit ' ' data
        if values.length < 7 then .error ("invalid SOA record data: " ++ data)
        else
          let soaRec : SoaRecord :=
            ⟨values.getD 0 "", values.getD 1 "",
              (goParseInt64 (values.getD 2 "")).fst,
              (goParseInt64 (values.getD 3 "")).fst,
              (goParseInt64 (values.getD 4 "")).fst,
              (goParseInt64 (values.getD 5 "")).fst,
              (goParseInt64 (values.getD 6 "")).fst⟩
          .ok { properties := { ttl := secondsOfDuration ttl, soaRecord := some soaRec } }
      else .error ("the type " ++ rtype ++ " cannot be interpreted")

/-! ### Zone operations (client.go, provider.go)

Each operation is embedded as a pure function of an oracle for the remote
Azure RecordSets API; alongside its Go return values it returns the list
of remote calls it issued, in order. The per-operation mutex and the
`context.Context` plumbing have no observable effect on these values and
are not modelled. -/

/-- Modelled from the spec: `libdns.RelativeName` from the libdns
dependency (not in src/). Strips a trailing dot from both arguments and
removes the zone suffix (and its separating dot) from the end of the
fully-qualified name; a name not under the zone is returned unchanged. -/
def RelativeName (fqdn zone : String) : String :=
  trimSuffix (trimSuffix (trimSuffix fqdn ".") (trimSuffix zone ".")) "."

/-- Generates the relative record-set name: strip any trailing dot from
the record name, make it relative to the zone, and normalize an empty
result to the apex marker. -/
def generateRecordSetName (name zone : String) : String :=
  let recordSetName := RelativeName (trimSuffix name "." ++ ".") zone
  if recordSetName = "" then "@" else recordSetName

/-- Modelled from the spec: the `Name` of `record.RR()` from the libdns
dependency (not in src/). Typed records carry their name; an SRV name is
the concatenation of service, transport and name-or-apex. -/
def recordRRName : LibdnsRecord IP → String
  | .address nm _ _ => nm
  | .caa nm _ _ _ _ => nm
  | .cname nm _ _ => nm
  | .mx nm _ _ _ => nm
  | .ns nm _ _ => nm
  | .srv service transport nm _ _ _ _ _ => "_" ++ service ++ "._" ++ transport ++ "." ++ nm
  | .txt nm _ _ => nm
  | .rr nm _ _ _ => nm

/-- Modelled from the spec: the `Type` of `record.RR()` from the libdns
dependency (not in src/). An address serializes as A or AAAA according to
the address family; generic RRs keep their tag. -/
def recordRRType (c : NetipCodec IP) : LibdnsRecord IP → String
  | .address _ _ ip => if c.is6 ip then "AAAA" else "A"
  | .caa _ _ _ _ _ => "CAA"
  | .cname _ _ _ => "CNAME"
  | .mx _ _ _ _ => "MX"
  | .ns _ _ _ => "NS"
  | .srv _ _ _ _ _ _ _ _ => "SRV"
  | .txt _ _ _ => "TXT"
  | .rr _ rtype _ _ => rtype

/-- One remote invocation of the Azure RecordSets API, with the arguments
the client passes, conditional headers included. -/
inductive RemoteCall where
  | listByDNSZone (resourceGroupName zoneName : String)
  | createOrUpdate (resourceGroupName zoneName relativeRecordSetName : String)
      (recordType : RecordType) (recordSet : RecordSet)
      (ifMatch ifNoneMatch : Option String)
  | delete (resourceGroupName zoneName relativeRecordSetName : String)
      (recordType : RecordType) (ifMatch : Option String)
deriving DecidableEq

/-- Oracle for the remote service and the lazy client setup: the outcome of
each call the client can issue. The response record set of a
create-or-update (with whatever ETag the service assigned) is part of the
oracle so that discarding it is visible in the theorems. -/
structure AzureBackend where
  setupErr : Option String := none
  listResp : String → String → Except String (List RecordSet)
  createOrUpdateResp : String → String → String → RecordType → RecordSet →
      Option String → Option String → RecordSet × Option String
  deleteResp : String → String → String → RecordType → Option String → Option String

structure Provider where
  resourceGroupName : String

/-- `getRecords`: list all record sets of the zone (the paginated listing
is the oracle's one answer) and convert them. The Go code discards the
conversion error (`records, _ := convert...`) and returns a nil error. -/
def getRecords (c : NetipCodec IP) (p : Provider) (b : AzureBackend) (zone : String) :
    List RemoteCall × Except String (List (LibdnsRecord IP)) :=
  match b.setupErr with
  | some e => ([], .error e)
  | none =>
    let zoneName := trimSuffix zone "."
    let call := RemoteCall.listByDNSZone p.resourceGroupName zoneName
    match b.listResp p.resourceGroupName zoneName with
    | .error e => ([call], .error e)
    | .ok recordSets =>
      ([call], .ok (convertAzureRecordSetsToLibdnsRecords c recordSets).fst)

/-- `createOrUpdateRecord`: convert, then issue `CreateOrUpdate` with
`IfMatch` unset and `IfNoneMatch` set to the given string; the response is
discarded and the input record is returned with the error, if any. -/
def createOrUpdateRecord (c : NetipCodec IP) (p : Provider) (b : AzureBackend)
    (zone : String) (record : LibdnsRecord IP) (ifNoneMatch : String) :
    List RemoteCall × LibdnsRecord IP × Option String :=
  match b.setupErr with
  | some e => ([], record, some e)
  | none =>
    match convertStringToRecordType (recordRRType c record) with
    | .error e => ([], record, some e)
    | .ok recordType =>
      match convertLibdnsRecordToAzureRecordSet c record with
      | .error e => ([], record, some e)
      | .ok recordSet =>
        let call := RemoteCall.createOrUpdate p.resourceGroupName (trimSuffix zone ".")
          (generateRecordSetName (recordRRName record) zone) recordType recordSet
          none (some ifNoneMatch)
        let resp := b.createOrUpdateResp p.resourceGroupName (trimSuffix zone ".")
          (generateRecordSetName (recordRRName record) zone) recordType recordSet
          none (some ifNoneMatch)
        ([call], record, resp.snd)

/-- `createRecord`: create-or-update constrained by `If-None-Match: *`, so
the write fails if a record set with the same name and type exists. -/
def createRecord (c : NetipCodec IP) (p : Provider) (b : AzureBackend)
    (zone : String) (record : LibdnsRecord IP) :
    List RemoteCall × LibdnsRecord IP × Option String :=
  createOrUpdateRecord c p b zone record "*"

/-- `updateRecord`: create-or-update with an empty `If-None-Match` value,
which imposes no ETag precondition: create if absent, overwrite if
present. -/
def updateRecord (c : NetipCodec IP) (p : Provider) (b : AzureBackend)
    (zone : String) (record : LibdnsRecord IP) :
    List RemoteCall × LibdnsRecord IP × Option String :=
  createOrUpdateRecord c p b zone record ""

/-- `deleteRecord`: delete by name and type with no `IfMatch` constraint;
the input record is returned with the error, if any. -/
def deleteRecord (c : NetipCodec IP) (p : Provider) (b : AzureBackend)
    (zone : String) (record : LibdnsRecord IP) :
    List RemoteCall × LibdnsRecord IP × Option String :=
  match b.setupErr with
  | some e => ([], record, some e)
  | none =>
    match convertStringToRecordType (recordRRType c record) with
    | .error e => ([], record, some e)
    | .ok recordType =>
      let call := RemoteCall.delete p.resourceGroupName (trimSuffix zone ".")
        (generateRecordSetName (recordRRName record) zone) recordType none
      let err := b.deleteResp p.resourceGroupName (trimSuffix zone ".")
        (generateRecordSetName (recordRRName record) zone) recordType none
      ([call], record, err)

/-- The shared loop shape of `AppendRecords`, `SetRecords` and
`DeleteRecords` (provider.go): one per-record call per input record in
input order; the first failing record aborts the loop, its error is
returned with a nil record list, and nothing already done is revisited. -/
def batchRun (g : α → List RemoteCall × α × Option String) :
    List α → List RemoteCall × Except String (List α)
  | [] => ([], .ok [])
  | record :: rest =>
    match g record with
    | (tr, done, some e) =>
      let _ := done
      (tr, .error e)
    | (tr, done, none) =>
      match batchRun g rest with
      | (tr2, .error e) => (tr ++ tr2, .error e)
      | (tr2, .ok others) => (tr ++ tr2, .ok (done :: others))

/-- `AppendRecords`: one `createRecord` per input record. -/
def AppendRecords (c : NetipCodec IP) (p : Provider) (b : AzureBackend)
    (zone : String) (records : List (LibdnsRecord IP)) :
    List RemoteCall × Except String (List (LibdnsRecord IP)) :=
  batchRun (createRecord c p b zone) records

/-- `SetRecords`: one `updateRecord` per input record. -/
def SetRecords (c : NetipCodec IP) (p : Provider) (b : AzureBackend)
    (zone : String) (records : List (LibdnsRecord IP)) :
    List RemoteCall × Except String (List (LibdnsRecord IP)) :=
  batchRun (updateRecord c p b zone) records

/-- `DeleteRecords`: one `deleteRecord` per input record. -/
def DeleteRecords (c : NetipCodec IP) (p : Provider) (b : AzureBackend)
    (zone : String) (records : List (LibdnsRecord IP)) :
    List RemoteCall × Except String (List (LibdnsRecord IP)) :=
  batchRun (deleteRecord c p b zone) records

/-! ### The conversion round-trip relation (for the §8 round-trip property)

`Corresponds c rs r` relates an Azure record set carrying exactly one
payload entry to the normalized record it converts to. Each constructor
carries the stability facts the round trip needs: the TTL is an in-range
whole number of seconds, numeric payload fields fit the unsigned widths
libdns uses, IP strings are parse/render stable for the codec, the SRV
set name decomposes, and the SOA fields are split/join and parse/render
stable. The set's `Name`, `Type` and `Etag` do not constrain the payload:
`Etag` is arbitrary, and `Name`/`Type` are exactly what the write path
would fill in. -/

abbrev ttlOK (s : Int) : Prop := 0 ≤ s ∧ s * 1000000000 ≤ int64Max

inductive Corresponds (c : NetipCodec IP) : RecordSet → LibdnsRecord IP → Prop where
  | a (nm ipStr : String) (s : Int) (et : Option String) (ip : IP)
      (httl : ttlOK s) (hparse : c.parseAddr ipStr = .ok ip)
      (hrender : c.render ip = ipStr) (h6 : c.is6 ip = false) :
      Corresponds c
        { name := some nm, typ := some (typeQual ++ "A"), etag := et,
          properties := { ttl := s, aRecords := [⟨ipStr⟩] } }
        (.address nm (s * 1000000000) ip)
  | aaaa (nm ipStr : String) (s : Int) (et : Option String) (ip : IP)
      (httl : ttlOK s) (hparse : c.parseAddr ipStr = .ok ip)
      (hrender : c.render ip = ipStr) (h6 : c.is6 ip = true) :
      Corresponds c
        { name := some nm, typ := some (typeQual ++ "AAAA"), etag := et,
          properties := { ttl := s, aaaaRecords := [⟨ipStr⟩] } }
        (.address nm (s * 1000000000) ip)
  | caa (nm tag value : String) (s : Int) (et : Option String) (fl : Nat)
      (httl : ttlOK s) (hfl : fl < 256) :
      Corresponds c
        { name := some nm, typ := some (typeQual ++ "CAA"), etag := et,
          properties := { ttl := s, caaRecords := [⟨(fl : Int), tag, value⟩] } }
        (.caa nm (s * 1000000000) fl tag value)
  | cname (nm target : String) (s : Int) (et : Option String) (httl : ttlOK s) :
      Corresponds c
        { name := some nm, typ := some (typeQual ++ "CNAME"), etag := et,
          properties := { ttl := s, cnameRecord := some ⟨target⟩ } }
        (.cname nm (s * 1000000000) target)
  | mx (nm target : String) (s : Int) (et : Option String) (pref : Nat)
      (httl : ttlOK s) (hpref : pref < 65536) :
      Corresponds c
        { name := some nm, typ := some (typeQual ++ "MX"), etag := et,
          properties := { ttl := s, mxRecords := [⟨(pref : Int), target⟩] } }
        (.mx nm (s * 1000000000) pref target)
  | ns (nm target : String) (s : Int) (et : Option String) (httl : ttlOK s) :
      Corresponds c
        { name := some nm, typ := some (typeQual ++ "NS"), etag := et,
          properties := { ttl := s, nsRecords := [⟨target⟩] } }
        (.ns nm (s * 1000000000) target)
  | ptr (nm target : String) (s : Int) (et : Option String) (httl : ttlOK s) :
      Corresponds c
        { name := some nm, typ := some (typeQual ++ "PTR"), etag := et,
          properties := { ttl := s, ptrRecords := [⟨target⟩] } }
        (.rr nm "PTR" (s * 1000000000) target)
  | soa (nm host email : String) (s : Int) (et : Option String) (n1 n2 n3 n4 n5 : Int)
      (httl : ttlOK s)
      (hsplit : goSplit ' ' (soaJoin host email n1 n2 n3 n4 n5) =
        [host, email, istr n1, istr n2, istr n3, istr n4, istr n5])
      (hp1 : goParseInt64 (istr n1) = (n1, true))
      (hp2 : goParseInt64 (istr n2) = (n2, true))
      (hp3 : goParseInt64 (istr n3) = (n3, true))
      (hp4 : goParseInt64 (istr n4) = (n4, true))
      (hp5 : goParseInt64 (istr n5) = (n5, true)) :
      Corresponds c
        { name := some nm, typ := some (typeQual ++ "SOA"), etag := et,
          properties := { ttl := s, soaRecord := some ⟨host, email, n1, n2, n3, n4, n5⟩ } }
        (.rr nm "SOA" (s * 1000000000) (soaJoin host email n1 n2 n3 n4 n5))
  | srv3 (nm a b restName target : String) (s : Int) (et : Option String)
      (p w pt : Nat) (httl : ttlOK s)
      (hp : p < 65536) (hw : w < 65536) (hpt : pt < 65536)
      (hsplit : goSplitN '.' 3 nm = [a, b, restName]) :
      Corresponds c
        { name := some nm, typ := some (typeQual ++ "SRV"), etag := et,
          properties := { ttl := s, srvRecords := [⟨(p : Int), (w : Int), (pt : Int), target⟩] } }
        (.srv (goTrimPre "_" a) (goTrimPre "_" b) restName (s * 1000000000) p w pt target)
  | srv2 (nm a b target : String) (s : Int) (et : Option String)
      (p w pt : Nat) (httl : ttlOK s)
      (hp : p < 65536) (hw : w < 65536) (hpt : pt < 65536)
      (hsplit : goSplitN '.' 3 nm = [a, b]) :
      Corresponds c
        { name := some nm, typ := some (typeQual ++ "SRV"), etag := et,
          properties := { ttl := s, srvRecords := [⟨(p : Int), (w : Int), (pt : Int), target⟩] } }
        (.srv (goTrimPre "_" a) (goTrimPre "_" b) "@" (s * 1000000000) p w pt target)
  | txt (nm text : String) (s : Int) (et : Option String) (httl : ttlOK s) :
      Corresponds c
        { name := some nm, typ := some (typeQual ++ "TXT"), etag := et,
          properties := { ttl := s, txtRecords := [⟨[text]⟩] } }
        (.txt nm (s * 1000000000) text)

/-! ### Concrete instances used by the witnesses -/

/-- A concrete address type for instantiating the codec boundary: a tagged
canonical address string. -/
inductive WitIP where
  | v4 (s : String)
  | v6 (s : String)
deriving DecidableEq

/-- A concrete codec recognizing the two canonical literals the witnesses
use; parse/render stability holds at both. -/
def witCodec : NetipCodec WitIP where
  parseAddr s :=
    if s = "127.0.0.1" then .ok (.v4 s)
    else if s = "::1" then .ok (.v6 s)
    else .error "ParseAddr: unable to parse IP"
  render ip := match ip with | .v4 s => s | .v6 s => s
  is6 ip := match ip with | .v4 _ => false | .v6 _ => true

def witProvider : Provider := ⟨"fake-resource-group-name"⟩

/-- A record set with an unsupported type tag. -/
def errSet : RecordSet :=
  { typ := some (typeQual ++ "ERR"), properties := { ttl := 0 } }

/-- A backend on which every remote call succeeds. -/
def okBackend : AzureBackend where
  listResp := fun _ _ => .ok []
  createOrUpdateResp := fun _ _ _ _ rs _ _ => ({ rs with etag := some "ETAG_NEW" }, none)
  deleteResp := fun _ _ _ _ _ => none

/-- A backend whose zone listing contains a record set of an unsupported
type. -/
def bugBackend : AzureBackend where
  listResp := fun _ _ => .ok [errSet]
  createOrUpdateResp := fun _ _ _ _ rs _ _ => (rs, none)
  deleteResp := fun _ _ _ _ _ => none

/-- A backend that fails any write or delete aimed at the relative name
`record-bad` and answers every other call successfully. -/
def failBackend : AzureBackend where
  listResp := fun _ _ => .ok []
  createOrUpdateResp := fun _ _ relName _ rs _ _ =>
    (rs, if relName = "record-bad" then some "RemoteError: precondition failed" else none)
  deleteResp := fun _ _ relName _ _ =>
    if relName = "record-bad" then some "RemoteError: delete failed" else none

/-- Concrete single-entry record sets mirroring the repository test
fixtures, paired below with the normalized records they convert to. -/
def azureFakeA : RecordSet :=
  { name := some "record-a", typ := some (typeQual ++ "A"), etag := some "ETAG_A",
    properties := { ttl := 30, aRecords := [⟨"127.0.0.1"⟩] } }

def azureFakeAAAA : RecordSet :=
  { name := some "record-aaaa", typ := some (typeQual ++ "AAAA"), etag := some "ETAG_AAAA",
    properties := { ttl := 30, aaaaRecords := [⟨"::1"⟩] } }

def azureFakeCAA : RecordSet :=
  { name := some "record-caa", typ := some (typeQual ++ "CAA"), etag := some "ETAG_CAA",
    properties := { ttl := 30, caaRecords := [⟨0, "issue", "ca.example.com"⟩] } }

def azureFakeCNAME : RecordSet :=
  { name := some "record-cname", typ := some (typeQual ++ "CNAME"), etag := some "ETAG_CNAME",
    properties := { ttl := 30, cnameRecord := some ⟨"www.example.com"⟩ } }

def azureFakeMX : RecordSet :=
  { name := some "record-mx", typ := some (typeQual ++ "MX"), etag := some "ETAG_MX",
    properties := { ttl := 30, mxRecords := [⟨10, "mail.example.com"⟩] } }

def azureFakeNS : RecordSet :=
  { name := some "@", typ := some (typeQual ++ "NS"), etag := some "ETAG_NS",
    properties := { ttl := 30, nsRecords := [⟨"ns1.example.com"⟩] } }

def azureFakePTR : RecordSet :=
  { name := some "record-ptr", typ := some (typeQual ++ "PTR"), etag := some "ETAG_PTR",
    properties := { ttl := 30, ptrRecords := [⟨"hoge.example.com"⟩] } }

def azureFakeSOA : RecordSet :=
  { name := some "@", typ := some (typeQual ++ "SOA"), etag := some "ETAG_SOA",
    properties := { ttl := 30, soaRecord := some ⟨"ns1.example.com", "hostmaster.example.com", 1, 7200, 900, 1209600, 86400⟩ } }

def azureFakeSRV : RecordSet :=
  { name := some "_service._proto.record-srv", typ := some (typeQual ++ "SRV"),
    etag := some "ETAG_SRV",
    properties := { ttl := 30, srvRecords := [⟨1, 10, 5269, "app.example.com"⟩] } }

def azureFakeSRV2 : RecordSet :=
  { name := some "_service._proto", typ := some (typeQual ++ "SRV"), etag := some "ETAG_SRV2",
    properties := { ttl := 30, srvRecords := [⟨1, 10, 5269, "app.example.com"⟩] } }

def azureFakeTXT : RecordSet :=
  { name := some "record-txt", typ := some (typeQual ++ "TXT"), etag := some "ETAG_TXT",
    properties := { ttl := 30, txtRecords := [⟨["TEST VALUE"]⟩] } }

def libdnsFakeA : LibdnsRecord WitIP := .address "record-a" (30 * 1000000000) (.v4 "127.0.0.1")

def libdnsFakeAAAA : LibdnsRecord WitIP := .address "record-aaaa" (30 * 1000000000) (.v6 "::1")

def libdnsFakeCAA : LibdnsRecord WitIP :=
  .caa "record-caa" (30 * 1000000000) 0 "issue" "ca.example.com"

def libdnsFakeCNAME : LibdnsRecord WitIP :=
  .cname "record-cname" (30 * 1000000000) "www.example.com"

def libdnsFakeMX : LibdnsRecord WitIP := .mx "record-mx" (30 * 1000000000) 10 "mail.example.com"

def libdnsFakeNS : LibdnsRecord WitIP := .ns "@" (30 * 1000000000) "ns1.example.com"

def libdnsFakePTR : LibdnsRecord WitIP := .rr "record-ptr" "PTR" (30 * 1000000000) "hoge.example.com"

def libdnsFakeSOA : LibdnsRecord WitIP :=
  .rr "@" "SOA" (30 * 1000000000)
    "ns1.example.com hostmaster.example.com 1 7200 900 1209600 86400"

def libdnsFakeSRV : LibdnsRecord WitIP :=
  .srv "service" "proto" "record-srv" (30 * 1000000000) 1 10 5269 "app.example.com"

def libdnsFakeSRV2 : LibdnsRecord WitIP :=
  .srv "service" "proto" "@" (30 * 1000000000) 1 10 5269 "app.example.com"

def libdnsFakeTXT : LibdnsRecord WitIP := .txt "record-txt" (30 * 1000000000) "TEST VALUE"

/-- The ten record type names the provider supports, by exact uppercase
match. -/
def supportedTypeNames : List String :=
  ["A", "AAAA", "CAA", "CNAME", "MX", "NS", "PTR", "SOA", "SRV", "TXT"]

/-- The type tags treated specially somewhere on the normalized-to-Azure
path: the kinds libdns re-types a generic RR into (outside this model's
scope) plus the two the converter matches case-insensitively. -/
def libdnsSpecialKinds : List String :=
  ["A", "AAAA", "CAA", "CNAME", "HTTPS", "MX", "NS", "PTR", "SOA", "SRV", "SVCB", "TXT"]

/-- Strip the record-set metadata the write path fills in later. -/
def stripMeta (rs : RecordSet) : RecordSet :=
  { name := none, typ := none, etag := none, properties := rs.properties }

/-! ### Helper lemmas: strings -/

theorem trimSuffixL_append (a b : List Char) : trimSuffixL (a ++ b) b = a := by
  unfold trimSuffixL
  rw [if_pos (List.suffix_append a b)]
  simp [List.length_append]

theorem trimSuffixL_self (a : List Char) : trimSuffixL a a = [] := by
  unfold trimSuffixL
  rw [if_pos (List.suffix_refl a)]
  simp

theorem trimSuffixL_nil_left (t : List Char) : trimSuffixL [] t = [] := by
  unfold trimSuffixL
  split <;> simp

theorem trimSuffixL_of_not_suffix {s t : List Char} (h : ¬ t <:+ s) : trimSuffixL s t = s := by
  unfold trimSuffixL
  rw [if_neg h]

theorem trimSuffix_append (s t : String) : trimSuffix (s ++ t) t = s := by
  show String.mk (trimSuffixL (s ++ t).data t.data) = s
  rw [String.data_append, trimSuffixL_append]

theorem trimSuffix_nil_left (t : String) : trimSuffix "" t = "" := by
  show String.mk (trimSuffixL "".data t.data) = ""
  rw [show ("" : String).data = [] from rfl, trimSuffixL_nil_left]

theorem trimSuffix_data (s t : String) : (trimSuffix s t).data = trimSuffixL s.data t.data := rfl

theorem trimPreL_append (p r : List Char) : trimPreL p (p ++ r) = r := by
  unfold trimPreL
  rw [if_pos (List.prefix_append p r)]
  exact List.drop_left p r

theorem goTrimPre_append (p r : String) : goTrimPre p (p ++ r) = r := by
  show String.mk (trimPreL p.data (p ++ r).data) = r
  rw [String.data_append, trimPreL_append]

theorem splitCh_cons_eq (c x : Char) (xs h2 : List Char) (t : List (List Char))
    (h : splitCh c xs = h2 :: t) :
    splitCh c (x :: xs) = if x = c then [] :: h2 :: t else (x :: h2) :: t := by
  unfold splitCh
  rw [h]

theorem splitCh_ne_nil (c : Char) (l : List Char) : splitCh c l ≠ [] := by
  induction l with
  | nil => simp [splitCh]
  | cons x xs ih =>
    match h : splitCh c xs with
    | [] => exact absurd h ih
    | h2 :: t =>
      rw [splitCh_cons_eq c x xs h2 t h]
      by_cases hx : x = c <;> simp [hx]

theorem joinCh_splitCh (c : Char) (l : List Char) : joinCh c (splitCh c l) = l := by
  induction l with
  | nil => simp [splitCh, joinCh]
  | cons x xs ih =>
    match h : splitCh c xs with
    | [] => exact absurd h (splitCh_ne_nil c xs)
    | h2 :: t =>
      rw [h] at ih
      rw [splitCh_cons_eq c x xs h2 t h]
      by_cases hx : x = c
      · rw [if_pos hx]
        show [] ++ c :: joinCh c (h2 :: t) = x :: xs
        rw [ih, ← hx]
        rfl
      · rw [if_neg hx]
        cases t with
        | nil =>
          show x :: h2 = x :: xs
          rw [show joinCh c [h2] = h2 from rfl] at ih
          rw [ih]
        | cons y ys =>
          show (x :: h2) ++ c :: joinCh c (y :: ys) = x :: xs
          rw [show joinCh c (h2 :: y :: ys) = h2 ++ c :: joinCh c (y :: ys) from rfl] at ih
          rw [← ih]
          simp

/-! ### Helper lemmas: integers -/

theorem wrap64_of_range {x : Int} (h1 : int64Min ≤ x) (h2 : x ≤ int64Max) : wrap64 x = x := by
  unfold wrap64
  unfold int64Min at h1
  unfold int64Max at h2
  omega

theorem durationOfSeconds_of_ttlOK {s : Int} (h : ttlOK s) :
    durationOfSeconds s = s * 1000000000 := by
  obtain ⟨h1, h2⟩ := h
  unfold durationOfSeconds
  apply wrap64_of_range
  · unfold int64Min
    omega
  · exact h2

theorem secondsOfDuration_mul (s : Int) : secondsOfDuration (s * 1000000000) = s := by
  unfold secondsOfDuration
  exact Int.mul_tdiv_cancel s (by norm_num)

theorem toUint8_coe {p : Nat} (h : p < 256) : toUint8 (p : Int) = p := by
  unfold toUint8
  omega

theorem toUint16_coe {p : Nat} (h : p < 65536) : toUint16 (p : Int) = p := by
  unfold toUint16
  omega

theorem toUpper_PTR : goToUpper "PTR" = "PTR" := by decide

theorem toUpper_SOA : goToUpper "SOA" = "SOA" := by decide

theorem exceptMap_ok (f : α → β) (x : α) :
    Except.map f (Except.ok x : Except String α) = .ok (f x) := rfl

/-- C1: for every supported record kind (A, AAAA, CAA, CNAME, MX, NS, PTR,
SOA, SRV, TXT), converting an Azure record set to normalized records and
back, and converting a normalized record to an Azure record set and back,
preserve the name, TTL in whole seconds, and the type-specific payload
fields: whenever `Corresponds c rs r` (the set carries one payload entry
whose fields are stable under the conversions), the Azure-to-libdns
converter sends the set to exactly the record `r`, and the libdns-to-Azure
converter sends `r` back to a set with the same TTL and payload whose
`Name`, `Type` and `Etag` are left unset for the caller to fill at write
time. -/
theorem C1_roundtrip {IP : Type} (c : NetipCodec IP) (rs : RecordSet) (r : LibdnsRecord IP)
    (h : Corresponds c rs r) :
    convertAzureRecordSetsToLibdnsRecords c [rs] = ([r], none) ∧
    convertLibdnsRecordToAzureRecordSet c r =
      .ok { name := none, typ := none, etag := none, properties := rs.properties } := by
  cases h with
  | a nm ipStr s et ip httl hparse hrender h6 =>
    refine ⟨?_, ?_⟩
    · simp [convertAzureRecordSetsToLibdnsRecords, convertSet, goTrimPre_append,
        parseAddressRecs, exceptMap_ok, hparse, durationOfSeconds_of_ttlOK httl]
    · simp [convertLibdnsRecordToAzureRecordSet, RRparse, h6, hrender, secondsOfDuration_mul]
  | aaaa nm ipStr s et ip httl hparse hrender h6 =>
    refine ⟨?_, ?_⟩
    · simp [convertAzureRecordSetsToLibdnsRecords, convertSet, goTrimPre_append,
        parseAddressRecs, exceptMap_ok, hparse, durationOfSeconds_of_ttlOK httl]
    · simp [convertLibdnsRecordToAzureRecordSet, RRparse, h6, hrender, secondsOfDuration_mul]
  | caa nm tag value s et fl httl hfl =>
    refine ⟨?_, ?_⟩
    · simp [convertAzureRecordSetsToLibdnsRecords, convertSet, goTrimPre_append,
        mapPayload, exceptMap_ok, toUint8_coe hfl, durationOfSeconds_of_ttlOK httl]
    · simp [convertLibdnsRecordToAzureRecordSet, RRparse, secondsOfDuration_mul]
  | cname nm target s et httl =>
    refine ⟨?_, ?_⟩
    · simp [convertAzureRecordSetsToLibdnsRecords, convertSet, goTrimPre_append,
        durationOfSeconds_of_ttlOK httl]
    · simp [convertLibdnsRecordToAzureRecordSet, RRparse, secondsOfDuration_mul]
  | mx nm target s et pref httl hpref =>
    refine ⟨?_, ?_⟩
    · simp [convertAzureRecordSetsToLibdnsRecords, convertSet, goTrimPre_append,
        mapPayload, exceptMap_ok, toUint16_coe hpref, durationOfSeconds_of_ttlOK httl]
    · simp [convertLibdnsRecordToAzureRecordSet, RRparse, secondsOfDuration_mul]
  | ns nm target s et httl =>
    refine ⟨?_, ?_⟩
    · simp [convertAzureRecordSetsToLibdnsRecords, convertSet, goTrimPre_append,
        mapPayload, exceptMap_ok, durationOfSeconds_of_ttlOK httl]
    · simp [convertLibdnsRecordToAzureRecordSet, RRparse, secondsOfDuration_mul]
  | ptr nm target s et httl =>
    refine ⟨?_, ?_⟩
    · simp [convertAzureRecordSetsToLibdnsRecords, convertSet, goTrimPre_append,
        mapPayload, exceptMap_ok, durationOfSeconds_of_ttlOK httl]
    · simp [convertLibdnsRecordToAzureRecordSet, RRparse, secondsOfDuration_mul,
        toUpper_PTR]
  | soa nm host email s et n1 n2 n3 n4 n5 httl hsplit hp1 hp2 hp3 hp4 hp5 =>
    refine ⟨?_, ?_⟩
    · simp [convertAzureRecordSetsToLibdnsRecords, convertSet, goTrimPre_append,
        durationOfSeconds_of_ttlOK httl]
    · simp [convertLibdnsRecordToAzureRecordSet, RRparse, secondsOfDuration_mul,
        toUpper_PTR, toUpper_SOA, hsplit, hp1, hp2, hp3, hp4, hp5]
  | srv3 nm a b restName target s et p w pt httl hp hw hpt hsplit =>
    refine ⟨?_, ?_⟩
    · simp [convertAzureRecordSetsToLibdnsRecords, convertSet, goTrimPre_append,
        srvRecs, exceptMap_ok, hsplit, toUint16_coe hp, toUint16_coe hw, toUint16_coe hpt,
        durationOfSeconds_of_ttlOK httl]
    · simp [convertLibdnsRecordToAzureRecordSet, RRparse, secondsOfDuration_mul]
  | srv2 nm a b target s et p w pt httl hp hw hpt hsplit =>
    refine ⟨?_, ?_⟩
    · simp [convertAzureRecordSetsToLibdnsRecords, convertSet, goTrimPre_append,
        srvRecs, exceptMap_ok, hsplit, toUint16_coe hp, toUint16_coe hw, toUint16_coe hpt,
        durationOfSeconds_of_ttlOK httl]
    · simp [convertLibdnsRecordToAzureRecordSet, RRparse, secondsOfDuration_mul]
  | txt nm text s et httl =>
    refine ⟨?_, ?_⟩
    · simp [convertAzureRecordSetsToLibdnsRecords, convertSet, goTrimPre_append,
        txtRecs, txtStrings, exceptMap_ok, Except.bind, bind, durationOfSeconds_of_ttlOK httl]
    · simp [convertLibdnsRecordToAzureRecordSet, RRparse, secondsOfDuration_mul]

/-- C1 witness: the round trip evaluated at one concrete record set and
normalized record of each supported kind (the repository test fixtures),
plus the concrete SOA data string built by the join. -/
theorem C1_roundtrip_witness :
    (convertAzureRecordSetsToLibdnsRecords witCodec [azureFakeA] = ([libdnsFakeA], none) ∧
      convertLibdnsRecordToAzureRecordSet witCodec libdnsFakeA = .ok (stripMeta azureFakeA)) ∧
    (convertAzureRecordSetsToLibdnsRecords witCodec [azureFakeAAAA] = ([libdnsFakeAAAA], none) ∧
      convertLibdnsRecordToAzureRecordSet witCodec libdnsFakeAAAA = .ok (stripMeta azureFakeAAAA)) ∧
    (convertAzureRecordSetsToLibdnsRecords witCodec [azureFakeCAA] = ([libdnsFakeCAA], none) ∧
      convertLibdnsRecordToAzureRecordSet witCodec libdnsFakeCAA = .ok (stripMeta azureFakeCAA)) ∧
    (convertAzureRecordSetsToLibdnsRecords witCodec [azureFakeCNAME] = ([libdnsFakeCNAME], none) ∧
      convertLibdnsRecordToAzureRecordSet witCodec libdnsFakeCNAME = .ok (stripMeta azureFakeCNAME)) ∧
    (convertAzureRecordSetsToLibdnsRecords witCodec [azureFakeMX] = ([libdnsFakeMX], none) ∧
      convertLibdnsRecordToAzureRecordSet witCodec libdnsFakeMX = .ok (stripMeta azureFakeMX)) ∧
    (convertAzureRecordSetsToLibdnsRecords witCodec [azureFakeNS] = ([libdnsFakeNS], none) ∧
      convertLibdnsRecordToAzureRecordSet witCodec libdnsFakeNS = .ok (stripMeta azureFakeNS)) ∧
    (convertAzureRecordSetsToLibdnsRecords witCodec [azureFakePTR] = ([libdnsFakePTR], none) ∧
      convertLibdnsRecordToAzureRecordSet witCodec libdnsFakePTR = .ok (stripMeta azureFakePTR)) ∧
    (convertAzureRecordSetsToLibdnsRecords witCodec [azureFakeSOA] = ([libdnsFakeSOA], none) ∧
      convertLibdnsRecordToAzureRecordSet witCodec libdnsFakeSOA = .ok (stripMeta azureFakeSOA)) ∧
    (convertAzureRecordSetsToLibdnsRecords witCodec [azureFakeSRV] = ([libdnsFakeSRV], none) ∧
      convertLibdnsRecordToAzureRecordSet witCodec libdnsFakeSRV = .ok (stripMeta azureFakeSRV)) ∧
    (convertAzureRecordSetsToLibdnsRecords witCodec [azureFakeSRV2] = ([libdnsFakeSRV2], none) ∧
      convertLibdnsRecordToAzureRecordSet witCodec libdnsFakeSRV2 = .ok (stripMeta azureFakeSRV2)) ∧
    (convertAzureRecordSetsToLibdnsRecords witCodec [azureFakeTXT] = ([libdnsFakeTXT], none) ∧
      convertLibdnsRecordToAzureRecordSet witCodec libdnsFakeTXT = .ok (stripMeta azureFakeTXT)) ∧
    soaJoin "ns1.example.com" "hostmaster.example.com" 1 7200 900 1209600 86400 =
      "ns1.example.com hostmaster.example.com 1 7200 900 1209600 86400" := by
  refine ⟨?_, ?_, ?_, ?_, ?_, ?_, ?_, ?_, ?_, ?_, ?_, ?_⟩
  · exact C1_roundtrip witCodec _ _
      (.a "record-a" "127.0.0.1" 30 (some "ETAG_A") (WitIP.v4 "127.0.0.1")
        (by decide) (by decide) (by decide) (by decide))
  · exact C1_roundtrip witCodec _ _
      (.aaaa "record-aaaa" "::1" 30 (some "ETAG_AAAA") (WitIP.v6 "::1")
        (by decide) (by decide) (by decide) (by decide))
  · exact C1_roundtrip witCodec _ _
      (.caa "record-caa" "issue" "ca.example.com" 30 (some "ETAG_CAA") 0 (by decide) (by decide))
  · exact C1_roundtrip witCodec _ _
      (.cname "record-cname" "www.example.com" 30 (some "ETAG_CNAME") (by decide))
  · exact C1_roundtrip witCodec _ _
      (.mx "record-mx" "mail.example.com" 30 (some "ETAG_MX") 10 (by decide) (by decide))
  · exact C1_roundtrip witCodec _ _
      (.ns "@" "ns1.example.com" 30 (some "ETAG_NS") (by decide))
  · exact C1_roundtrip witCodec _ _
      (.ptr "record-ptr" "hoge.example.com" 30 (some "ETAG_PTR") (by decide))
  · exact C1_roundtrip witCodec _ _
      (.soa "@" "ns1.example.com" "hostmaster.example.com" 30 (some "ETAG_SOA")
        1 7200 900 1209600 86400 (by decide) (by decide)
        (by decide) (by decide) (by decide) (by decide) (by decide))
  · exact C1_roundtrip witCodec _ _
      (.srv3 "_service._proto.record-srv" "_service" "_proto" "record-srv" "app.example.com"
        30 (some "ETAG_SRV") 1 10 5269
        (by decide) (by decide) (by decide) (by decide) (by decide))
  · exact C1_roundtrip witCodec _ _
      (.srv2 "_service._proto" "_service" "_proto" "app.example.com"
        30 (some "ETAG_SRV2") 1 10 5269
        (by decide) (by decide) (by decide) (by decide) (by decide))
  · exact C1_roundtrip witCodec _ _
      (.txt "record-txt" "TEST VALUE" 30 (some "ETAG_TXT") (by decide))
  · decide

/-- C2 (code bug): the claim — and §7 of the spec — say `getRecords`
surfaces a conversion TypeError to its caller and returns no partial
list. The code instead discards the conversion error
(`records, _ := convertAzureRecordSetsToLibdnsRecords(recordSets)`) and
returns a nil error: on a listing containing a record set of the
unsupported type `ERR`, the converter fails with the TypeError naming the
type, yet `getRecords` answers with an empty record list and no error. -/
theorem C2_getRecords_swallows_conversion_error :
    convertAzureRecordSetsToLibdnsRecords witCodec [errSet] =
      ([], some "the type ERR cannot be interpreted") ∧
    getRecords witCodec witProvider bugBackend "example.com." =
      ([.listByDNSZone "fake-resource-group-name" "example.com"],
        .ok ([] : List (LibdnsRecord WitIP))) := by
  constructor
  · decide
  · decide

/-- C3: `createRecord` issues the remote CreateOrUpdate call with
`If-None-Match` set to `"*"` (fail if a record set with the same name and
type exists) and no `If-Match`; `updateRecord` issues the same call with
no `If-Match` and an empty `If-None-Match` value — the Go code passes a
pointer to the empty string, which matches no ETag and so imposes no
precondition: create if absent, overwrite if present. -/
theorem C3_conditional_headers {IP : Type} (c : NetipCodec IP) (p : Provider) (b : AzureBackend)
    (zone : String) (record : LibdnsRecord IP) (recordType : RecordType) (recordSet : RecordSet)
    (hsetup : b.setupErr = none)
    (hty : convertStringToRecordType (recordRRType c record) = .ok recordType)
    (hconv : convertLibdnsRecordToAzureRecordSet c record = .ok recordSet) :
    (createRecord c p b zone record).fst =
      [.createOrUpdate p.resourceGroupName (trimSuffix zone ".")
        (generateRecordSetName (recordRRName record) zone) recordType recordSet none (some "*")] ∧
    (updateRecord c p b zone record).fst =
      [.createOrUpdate p.resourceGroupName (trimSuffix zone ".")
        (generateRecordSetName (recordRRName record) zone) recordType recordSet none (some "")] := by
  constructor <;> simp [createRecord, updateRecord, createOrUpdateRecord, hsetup, hty, hconv]

/-- C3 witness: the two conditional headers at a concrete TXT record. -/
theorem C3_conditional_headers_witness :
    (createRecord witCodec witProvider okBackend "example.com." libdnsFakeTXT).fst =
      [.createOrUpdate "fake-resource-group-name" "example.com" "record-txt" .TXT
        { properties := { ttl := 30, txtRecords := [⟨["TEST VALUE"]⟩] } } none (some "*")] ∧
    (updateRecord witCodec witProvider okBackend "example.com." libdnsFakeTXT).fst =
      [.createOrUpdate "fake-resource-group-name" "example.com" "record-txt" .TXT
        { properties := { ttl := 30, txtRecords := [⟨["TEST VALUE"]⟩] } } none (some "")] := by
  have h := C3_conditional_headers witCodec witProvider okBackend "example.com." libdnsFakeTXT
    .TXT { properties := { ttl := 30, txtRecords := [⟨["TEST VALUE"]⟩] } }
    rfl (by decide) (by decide)
  refine ⟨?_, ?_⟩
  · rw [h.1]
    decide
  · rw [h.2]
    decide

/-- C10: `createRecord`, `updateRecord` and `deleteRecord` return exactly
the input record, unchanged, on success and on every error path, for
every oracle: the remote response (including any ETag the service
assigned) is discarded and never merged into the returned record. -/
theorem C10_ops_return_input_record {IP : Type} (c : NetipCodec IP) (p : Provider)
    (b : AzureBackend) (zone : String) (record : LibdnsRecord IP) :
    (createRecord c p b zone record).2.1 = record ∧
    (updateRecord c p b zone record).2.1 = record ∧
    (deleteRecord c p b zone record).2.1 = record := by
  refine ⟨?_, ?_, ?_⟩ <;>
  · simp only [createRecord, updateRecord, deleteRecord, createOrUpdateRecord]
    repeat' split
    all_goals rfl

theorem batchRun_all_ok {α : Type} (g : α → List RemoteCall × α × Option String)
    (records : List α) (h : ∀ x ∈ records, (g x).2.2 = none) :
    batchRun g records =
      (records.flatMap (fun x => (g x).1), .ok (records.map (fun x => (g x).2.1))) := by
  induction records with
  | nil => simp [batchRun]
  | cons r rest ih =>
    have hrest := ih (fun x hx => h x (by simp [hx]))
    have hr := h r (by simp)
    rcases hgr : g r with ⟨tr, done, err⟩
    rw [hgr] at hr
    simp only at hr
    subst hr
    simp only [batchRun, hgr, hrest]
    simp [hgr]

theorem batchRun_first_error {α : Type} (g : α → List RemoteCall × α × Option String)
    (pre : List α) (r : α) (post : List α) (e : String)
    (hpre : ∀ x ∈ pre, (g x).2.2 = none) (hr : (g r).2.2 = some e) :
    batchRun g (pre ++ r :: post) =
      (pre.flatMap (fun x => (g x).1) ++ (g r).1, .error e) := by
  induction pre with
  | nil =>
    rcases hgr : g r with ⟨tr, done, err⟩
    rw [hgr] at hr
    simp only at hr
    subst hr
    simp [batchRun, hgr]
  | cons x xs ih =>
    have hx := hpre x (by simp)
    have hxs := ih (fun y hy => hpre y (by simp [hy]))
    rcases hgx : g x with ⟨tr, done, err⟩
    rw [hgx] at hx
    simp only at hx
    subst hx
    simp only [List.cons_append, batchRun, hgx, List.append_eq]
    rw [hxs]
    simp [hgx]

/-- C4: each batch operation (`AppendRecords`, `SetRecords`,
`DeleteRecords`) performs one independent per-record call per input
record in input order; at the first per-record failure it stops,
attempts no further records (the remote-call trace holds exactly the
calls of the successful records before it, in order, plus the failing
record's calls, and in particular no rollback calls), and returns only
that error with no record list; when every record succeeds, it performs
the per-record calls in input order and returns the per-record results. -/
theorem C4_batch_first_error_semantics {IP : Type} (c : NetipCodec IP) (p : Provider)
    (b : AzureBackend) (zone : String) :
    (∀ (pre : List (LibdnsRecord IP)) (r : LibdnsRecord IP) (post : List (LibdnsRecord IP))
        (e : String),
      (∀ x ∈ pre, (createRecord c p b zone x).2.2 = none) →
      (createRecord c p b zone r).2.2 = some e →
      AppendRecords c p b zone (pre ++ r :: post) =
        (pre.flatMap (fun x => (createRecord c p b zone x).1) ++ (createRecord c p b zone r).1,
          .error e)) ∧
    (∀ records : List (LibdnsRecord IP),
      (∀ x ∈ records, (createRecord c p b zone x).2.2 = none) →
      AppendRecords c p b zone records =
        (records.flatMap (fun x => (createRecord c p b zone x).1),
          .ok (records.map (fun x => (createRecord c p b zone x).2.1)))) ∧
    (∀ (pre : List (LibdnsRecord IP)) (r : LibdnsRecord IP) (post : List (LibdnsRecord IP))
        (e : String),
      (∀ x ∈ pre, (updateRecord c p b zone x).2.2 = none) →
      (updateRecord c p b zone r).2.2 = some e →
      SetRecords c p b zone (pre ++ r :: post) =
        (pre.flatMap (fun x => (updateRecord c p b zone x).1) ++ (updateRecord c p b zone r).1,
          .error e)) ∧
    (∀ records : List (LibdnsRecord IP),
      (∀ x ∈ records, (updateRecord c p b zone x).2.2 = none) →
      SetRecords c p b zone records =
        (records.flatMap (fun x => (updateRecord c p b zone x).1),
          .ok (records.map (fun x => (updateRecord c p b zone x).2.1)))) ∧
    (∀ (pre : List (LibdnsRecord IP)) (r : LibdnsRecord IP) (post : List (LibdnsRecord IP))
        (e : String),
      (∀ x ∈ pre, (deleteRecord c p b zone x).2.2 = none) →
      (deleteRecord c p b zone r).2.2 = some e →
      DeleteRecords c p b zone (pre ++ r :: post) =
        (pre.flatMap (fun x => (deleteRecord c p b zone x).1) ++ (deleteRecord c p b zone r).1,
          .error e)) ∧
    (∀ records : List (LibdnsRecord IP),
      (∀ x ∈ records, (deleteRecord c p b zone x).2.2 = none) →
      DeleteRecords c p b zone records =
        (records.flatMap (fun x => (deleteRecord c p b zone x).1),
          .ok (records.map (fun x => (deleteRecord c p b zone x).2.1)))) := by
  refine ⟨?_, ?_, ?_, ?_, ?_, ?_⟩
  · intro pre r post e hpre hr
    exact batchRun_first_error _ pre r post e hpre hr
  · intro records h
    exact batchRun_all_ok _ records h
  · intro pre r post e hpre hr
    exact batchRun_first_error _ pre r post e hpre hr
  · intro records h
    exact batchRun_all_ok _ records h
  · intro pre r post e hpre hr
    exact batchRun_first_error _ pre r post e hpre hr
  · intro records h
    exact batchRun_all_ok _ records h

/-- C4 witness: the batch semantics at a concrete three-record batch whose
middle record fails remotely (`failBackend` rejects writes and deletes of
`record-bad`), and at a concrete all-success batch: the failing batches
issue exactly the calls of the first record and the failing record, in
order, and return only the error; the successful batches issue one call
per record in order. -/
theorem C4_batch_first_error_semantics_witness :
    (AppendRecords witCodec witProvider failBackend "example.com."
      [.txt "record-good" (30 * 1000000000) "X", .txt "record-bad" (30 * 1000000000) "Y",
        .txt "record-after" (30 * 1000000000) "Z"] =
      ([.createOrUpdate "fake-resource-group-name" "example.com" "record-good" .TXT
          { properties := { ttl := 30, txtRecords := [⟨["X"]⟩] } } none (some "*"),
        .createOrUpdate "fake-resource-group-name" "example.com" "record-bad" .TXT
          { properties := { ttl := 30, txtRecords := [⟨["Y"]⟩] } } none (some "*")],
        .error "RemoteError: precondition failed")) ∧
    (SetRecords witCodec witProvider failBackend "example.com."
      [.txt "record-good" (30 * 1000000000) "X", .txt "record-bad" (30 * 1000000000) "Y",
        .txt "record-after" (30 * 1000000000) "Z"] =
      ([.createOrUpdate "fake-resource-group-name" "example.com" "record-good" .TXT
          { properties := { ttl := 30, txtRecords := [⟨["X"]⟩] } } none (some ""),
        .createOrUpdate "fake-resource-group-name" "example.com" "record-bad" .TXT
          { properties := { ttl := 30, txtRecords := [⟨["Y"]⟩] } } none (some "")],
        .error "RemoteError: precondition failed")) ∧
    (DeleteRecords witCodec witProvider failBackend "example.com."
      [.txt "record-good" (30 * 1000000000) "X", .txt "record-bad" (30 * 1000000000) "Y",
        .txt "record-after" (30 * 1000000000) "Z"] =
      ([.delete "fake-resource-group-name" "example.com" "record-good" .TXT none,
        .delete "fake-resource-group-name" "example.com" "record-bad" .TXT none],
        .error "RemoteError: delete failed")) ∧
    (AppendRecords witCodec witProvider okBackend "example.com."
      [.txt "record-good" (30 * 1000000000) "X", .txt "record-after" (30 * 1000000000) "Z"] =
      ([.createOrUpdate "fake-resource-group-name" "example.com" "record-good" .TXT
          { properties := { ttl := 30, txtRecords := [⟨["X"]⟩] } } none (some "*"),
        .createOrUpdate "fake-resource-group-name" "example.com" "record-after" .TXT
          { properties := { ttl := 30, txtRecords := [⟨["Z"]⟩] } } none (some "*")],
        .ok [.txt "record-good" (30 * 1000000000) "X", .txt "record-after" (30 * 1000000000) "Z"])) ∧
    (SetRecords witCodec witProvider okBackend "example.com."
      [.txt "record-good" (30 * 1000000000) "X"] =
      ([.createOrUpdate "fake-resource-group-name" "example.com" "record-good" .TXT
          { properties := { ttl := 30, txtRecords := [⟨["X"]⟩] } } none (some "")],
        .ok [.txt "record-good" (30 * 1000000000) "X"])) ∧
    (DeleteRecords witCodec witProvider okBackend "example.com."
      [.txt "record-good" (30 * 1000000000) "X"] =
      ([.delete "fake-resource-group-name" "example.com" "record-good" .TXT none],
        .ok [.txt "record-good" (30 * 1000000000) "X"])) := by
  have h := C4_batch_first_error_semantics witCodec witProvider failBackend "example.com."
  have hok := C4_batch_first_error_semantics witCodec witProvider okBackend "example.com."
  refine ⟨?_, ?_, ?_, ?_, ?_, ?_⟩
  · exact (h.1 [.txt "record-good" (30 * 1000000000) "X"] (.txt "record-bad" (30 * 1000000000) "Y")
      [.txt "record-after" (30 * 1000000000) "Z"] "RemoteError: precondition failed"
      (by decide) (by decide)).trans (by decide)
  · exact (h.2.2.1 [.txt "record-good" (30 * 1000000000) "X"]
      (.txt "record-bad" (30 * 1000000000) "Y") [.txt "record-after" (30 * 1000000000) "Z"]
      "RemoteError: precondition failed" (by decide) (by decide)).trans (by decide)
  · exact (h.2.2.2.2.1 [.txt "record-good" (30 * 1000000000) "X"]
      (.txt "record-bad" (30 * 1000000000) "Y") [.txt "record-after" (30 * 1000000000) "Z"]
      "RemoteError: delete failed" (by decide) (by decide)).trans (by decide)
  · exact (hok.2.1 [.txt "record-good" (30 * 1000000000) "X",
      .txt "record-after" (30 * 1000000000) "Z"] (by decide)).trans (by decide)
  · exact (hok.2.2.2.1 [.txt "record-good" (30 * 1000000000) "X"] (by decide)).trans (by decide)
  · exact (hok.2.2.2.2.2 [.txt "record-good" (30 * 1000000000) "X"] (by decide)).trans (by decide)

theorem stringDataEq {s t : String} (h : s.data = t.data) : s = t := by
  cases s
  cases t
  exact congrArg String.mk h

theorem dataAppendDot (a b : String) : (a ++ "." ++ b).data = a.data ++ '.' :: b.data := by
  simp [String.data_append]

theorem dataAppendDot2 (a b c : String) :
    (a ++ "." ++ b ++ "." ++ c).data = a.data ++ '.' :: (b.data ++ '.' :: c.data) := by
  simp [String.data_append]

theorem goSplitN3_two {s a b : String} (h : goSplitN '.' 3 s = [a, b]) :
    s = a ++ "." ++ b := by
  apply stringDataEq
  have hj := joinCh_splitCh '.' s.data
  simp only [goSplitN] at h
  by_cases hlen : (splitCh '.' s.data).length ≤ 3
  · rw [if_pos hlen] at h
    rcases hps : splitCh '.' s.data with _ | ⟨x, _ | ⟨y, _ | ⟨z, t⟩⟩⟩ <;> rw [hps] at h <;>
      simp only [List.map] at h
    · exact absurd h (by simp)
    · exact absurd h (by simp)
    · injection h with h1 h2
      injection h2 with h2 h3
      subst h1
      subst h2
      rw [hps] at hj
      rw [← hj, dataAppendDot]
      rfl
    · exact absurd h (by simp)
  · rw [if_neg hlen] at h
    exact absurd (congrArg List.length h) (by
      simp [List.length_append, List.length_take]
      omega)

theorem goSplitN3_three {s a b rest : String} (h : goSplitN '.' 3 s = [a, b, rest]) :
    s = a ++ "." ++ b ++ "." ++ rest := by
  apply stringDataEq
  have hj := joinCh_splitCh '.' s.data
  simp only [goSplitN] at h
  by_cases hlen : (splitCh '.' s.data).length ≤ 3
  · rw [if_pos hlen] at h
    rcases hps : splitCh '.' s.data with _ | ⟨x, _ | ⟨y, _ | ⟨z, _ | ⟨w, t⟩⟩⟩⟩ <;> rw [hps] at h <;>
      simp only [List.map] at h
    · exact absurd h (by simp)
    · exact absurd h (by simp)
    · exact absurd h (by simp)
    · injection h with h1 h2
      injection h2 with h2 h3
      injection h3 with h3 h4
      subst h1
      subst h2
      subst h3
      rw [hps] at hj
      rw [← hj, dataAppendDot2]
      rfl
    · exact absurd h (by simp)
  · rw [if_neg hlen] at h
    rcases hps : splitCh '.' s.data with _ | ⟨x, _ | ⟨y, _ | ⟨z, _ | ⟨w, t⟩⟩⟩⟩ <;>
      rw [hps] at h hlen <;> simp only [List.length] at hlen <;> try omega
    rw [hps] at hj
    simp only [List.take, List.drop, List.map, List.cons_append, List.nil_append] at h
    injection h with h1 h2
    injection h2 with h2 h3
    injection h3 with h3 h4
    subst h1
    subst h2
    subst h3
    rw [← hj, dataAppendDot2]
    rfl

/-- C5: converting an SRV record set: the Azure relative name must
decompose (by `strings.SplitN(name, ".", 3)`) into at least two
dot-separated components, and fewer than two fails with the FormatError
citing the expected shape; exactly two components yield the apex name
`@`; three or more yield the remaining suffix — the third `SplitN`
component, which by the reconstruction clauses is literally the rest of
the name after the first two dots, dots and case preserved — as the
record name; and one leading underscore is stripped from the service and
transport components. -/
theorem C5_srv_decomposition {IP : Type} (c : NetipCodec IP) :
    (∀ (nm : String) (et : Option String) (props : RecordSetProperties)
        (v : SrvRecord) (vs : List SrvRecord),
      props.srvRecords = v :: vs → (goSplitN '.' 3 nm).length < 2 →
      convertAzureRecordSetsToLibdnsRecords c
        [{ name := some nm, typ := some (typeQual ++ "SRV"), etag := et, properties := props }] =
        ([], some (srvBadNameMsg nm))) ∧
    (∀ (nm a b : String) (et : Option String) (props : RecordSetProperties) (v : SrvRecord),
      props.srvRecords = [v] → goSplitN '.' 3 nm = [a, b] →
      convertAzureRecordSetsToLibdnsRecords c
        [{ name := some nm, typ := some (typeQual ++ "SRV"), etag := et, properties := props }] =
        ([.srv (goTrimPre "_" a) (goTrimPre "_" b) "@" (durationOfSeconds props.ttl)
            (toUint16 v.priority) (toUint16 v.weight) (toUint16 v.port) v.target], none)) ∧
    (∀ (nm a b restName : String) (et : Option String) (props : RecordSetProperties)
        (v : SrvRecord),
      props.srvRecords = [v] → goSplitN '.' 3 nm = [a, b, restName] →
      convertAzureRecordSetsToLibdnsRecords c
        [{ name := some nm, typ := some (typeQual ++ "SRV"), etag := et, properties := props }] =
        ([.srv (goTrimPre "_" a) (goTrimPre "_" b) restName (durationOfSeconds props.ttl)
            (toUint16 v.priority) (toUint16 v.weight) (toUint16 v.port) v.target], none)) ∧
    (∀ s a b : String, goSplitN '.' 3 s = [a, b] → s = a ++ "." ++ b) ∧
    (∀ s a b rest : String, goSplitN '.' 3 s = [a, b, rest] →
      s = a ++ "." ++ b ++ "." ++ rest) ∧
    (∀ sv : String, goTrimPre "_" ("_" ++ sv) = sv) := by
  refine ⟨?_, ?_, ?_, ?_, ?_, ?_⟩
  · intro nm et props v vs hsrv hlen
    rcases hsp : goSplitN '.' 3 nm with _ | ⟨a, _ | ⟨b, rest⟩⟩
    · simp [convertAzureRecordSetsToLibdnsRecords, convertSet, goTrimPre_append, hsrv,
        srvRecs, hsp]
    · simp [convertAzureRecordSetsToLibdnsRecords, convertSet, goTrimPre_append, hsrv,
        srvRecs, hsp]
    · rw [hsp] at hlen
      simp only [List.length_cons] at hlen
      omega
  · intro nm a b et props v hsrv hsp
    simp [convertAzureRecordSetsToLibdnsRecords, convertSet, goTrimPre_append, hsrv,
      srvRecs, hsp, exceptMap_ok]
  · intro nm a b restName et props v hsrv hsp
    simp [convertAzureRecordSetsToLibdnsRecords, convertSet, goTrimPre_append, hsrv,
      srvRecs, hsp, exceptMap_ok]
  · intro s a b h
    exact goSplitN3_two h
  · intro s a b rest h
    exact goSplitN3_three h
  · intro sv
    exact goTrimPre_append "_" sv

/-- C5 witness: the three decomposition outcomes and the reconstruction
facts at concrete SRV names. -/
theorem C5_srv_decomposition_witness :
    (convertAzureRecordSetsToLibdnsRecords witCodec
      [{ name := some "bad", typ := some (typeQual ++ "SRV"), etag := none,
         properties := { ttl := 30, srvRecords := [⟨1, 10, 5269, "app.example.com"⟩] } }] =
      ([], some (srvBadNameMsg "bad"))) ∧
    (convertAzureRecordSetsToLibdnsRecords witCodec [azureFakeSRV2] =
      ([.srv "service" "proto" "@" (30 * 1000000000) 1 10 5269 "app.example.com"], none)) ∧
    (convertAzureRecordSetsToLibdnsRecords witCodec [azureFakeSRV] =
      ([.srv "service" "proto" "record-srv" (30 * 1000000000) 1 10 5269 "app.example.com"],
        none)) ∧
    ("_service._proto" : String) = "_service" ++ "." ++ "_proto" ∧
    ("_service._proto.record-srv" : String) =
      "_service" ++ "." ++ "_proto" ++ "." ++ "record-srv" ∧
    goTrimPre "_" ("_" ++ "service") = "service" := by
  have h := C5_srv_decomposition witCodec
  refine ⟨?_, ?_, ?_, ?_, ?_, ?_⟩
  · exact h.1 "bad" none
      { ttl := 30, srvRecords := [⟨1, 10, 5269, "app.example.com"⟩] }
      ⟨1, 10, 5269, "app.example.com"⟩ [] (by decide) (by decide)
  · exact (h.2.1 "_service._proto" "_service" "_proto" (some "ETAG_SRV2")
      { ttl := 30, srvRecords := [⟨1, 10, 5269, "app.example.com"⟩] }
      ⟨1, 10, 5269, "app.example.com"⟩ (by decide) (by decide)).trans (by decide)
  · exact (h.2.2.1 "_service._proto.record-srv" "_service" "_proto" "record-srv"
      (some "ETAG_SRV")
      { ttl := 30, srvRecords := [⟨1, 10, 5269, "app.example.com"⟩] }
      ⟨1, 10, 5269, "app.example.com"⟩ (by decide) (by decide)).trans (by decide)
  · exact h.2.2.2.1 "_service._proto" "_service" "_proto" (by decide)
  · exact h.2.2.2.2.1 "_service._proto.record-srv" "_service" "_proto" "record-srv" (by decide)
  · exact h.2.2.2.2.2 "service"

/-- C6 (amended): converting an SOA normalized record to an Azure record
set, the opaque data string must split (on single spaces) into at least
seven fields and fewer yields the FormatError naming the data; when
conversion succeeds each of the five integer fields parses permissively
and no parse failure is an error, but a failed parse is not always
treated as zero: a syntactically invalid field yields zero, while a
syntactically valid field whose value overflows int64 yields the nearest
int64 bound (Go `strconv.ParseInt` range clamping), not zero. -/
theorem C6_soa_parse_permissive {IP : Type} (c : NetipCodec IP) :
    (∀ (nm data : String) (ttl : Int), (goSplit ' ' data).length < 7 →
      convertLibdnsRecordToAzureRecordSet c (.rr nm "SOA" ttl data) =
        .error ("invalid SOA record data: " ++ data)) ∧
    (∀ (nm data : String) (ttl : Int), 7 ≤ (goSplit ' ' data).length →
      convertLibdnsRecordToAzureRecordSet c (.rr nm "SOA" ttl data) =
        .ok { properties :=
                { ttl := secondsOfDuration ttl,
                  soaRecord := some ⟨(goSplit ' ' data).getD 0 "", (goSplit ' ' data).getD 1 "",
                    (goParseInt64 ((goSplit ' ' data).getD 2 "")).fst,
                    (goParseInt64 ((goSplit ' ' data).getD 3 "")).fst,
                    (goParseInt64 ((goSplit ' ' data).getD 4 "")).fst,
                    (goParseInt64 ((goSplit ' ' data).getD 5 "")).fst,
                    (goParseInt64 ((goSplit ' ' data).getD 6 "")).fst⟩ } }) ∧
    (∀ s : String, intSyntaxOk s = false → goParseInt64 s = (0, false)) ∧
    (∀ s : String, intSyntaxOk s = true → int64Max < intValRaw s →
      goParseInt64 s = (int64Max, false)) ∧
    (∀ s : String, intSyntaxOk s = true → intValRaw s < int64Min →
      goParseInt64 s = (int64Min, false)) ∧
    (∀ s : String, intSyntaxOk s = true → int64Min ≤ intValRaw s → intValRaw s ≤ int64Max →
      goParseInt64 s = (intValRaw s, true)) := by
  refine ⟨?_, ?_, ?_, ?_, ?_, ?_⟩
  · intro nm data ttl hlen
    simp [convertLibdnsRecordToAzureRecordSet, RRparse, toUpper_SOA, hlen]
  · intro nm data ttl hlen
    have hnot : ¬ (goSplit ' ' data).length < 7 := by omega
    simp [convertLibdnsRecordToAzureRecordSet, RRparse, toUpper_SOA, hnot]
  · intro s hs
    simp [goParseInt64, hs]
  · intro s hs hgt
    have h2 : intValRaw s > int64Max := hgt
    simp [goParseInt64, hs, h2]
  · intro s hs hlt
    have h2 : ¬ intValRaw s > int64Max := by
      unfold int64Max int64Min at *
      omega
    simp [goParseInt64, hs, h2, hlt]
  · intro s hs hge hle
    have h2 : ¬ intValRaw s > int64Max := by omega
    have h3 : ¬ intValRaw s < int64Min := by omega
    simp [goParseInt64, hs, h2, h3]

/-- C6 counterexample: on SOA data whose serial field is the 20-digit
string 99999999999999999999, Go ParseInt fails with a range error, yet
the converter succeeds and stores the clamped int64 maximum
9223372036854775807 — not zero — as the serial number, refuting "any
parse failure silently treated as zero" at this concrete input. -/
theorem C6_soa_counterexample :
    convertLibdnsRecordToAzureRecordSet witCodec
      (.rr "@" "SOA" (30 * 1000000000)
        "ns1.example.com hostmaster.example.com 99999999999999999999 7200 900 1209600 86400") =
      .ok { properties := { ttl := 30, soaRecord := some ⟨"ns1.example.com", "hostmaster.example.com", 9223372036854775807, 7200, 900, 1209600, 86400⟩ } } ∧
    (goParseInt64 "99999999999999999999").snd = false ∧
    (9223372036854775807 : Int) ≠ 0 := by
  refine ⟨?_, ?_, ?_⟩
  · decide
  · decide
  · decide

/-- C6 witness: the amended behaviour at concrete inputs — a four-field
datum is a FormatError, a seven-field datum converts with its integer
fields, a malformed field parses to zero, overflowing fields clamp to
the int64 bounds, and an in-range field parses exactly. -/
theorem C6_soa_parse_permissive_witness :
    (convertLibdnsRecordToAzureRecordSet witCodec (.rr "@" "SOA" 0 "a b 1 2") =
      .error "invalid SOA record data: a b 1 2") ∧
    (convertLibdnsRecordToAzureRecordSet witCodec
      (.rr "@" "SOA" (30 * 1000000000)
        "ns1.example.com hostmaster.example.com 1 7200 900 1209600 86400") =
      .ok { properties := { ttl := 30, soaRecord := some ⟨"ns1.example.com", "hostmaster.example.com", 1, 7200, 900, 1209600, 86400⟩ } }) ∧
    goParseInt64 "12abc" = (0, false) ∧
    goParseInt64 "99999999999999999999" = (9223372036854775807, false) ∧
    goParseInt64 "-99999999999999999999" = (-9223372036854775808, false) ∧
    goParseInt64 "7200" = (7200, true) := by
  have h := C6_soa_parse_permissive witCodec
  refine ⟨?_, ?_, ?_, ?_, ?_, ?_⟩
  · have := h.1 "@" "a b 1 2" 0 (by decide)
    exact this.trans (by decide)
  · have := h.2.1 "@"
      "ns1.example.com hostmaster.example.com 1 7200 900 1209600 86400"
      (30 * 1000000000) (by decide)
    exact this.trans (by decide)
  · exact h.2.2.1 "12abc" (by decide)
  · exact (h.2.2.2.1 "99999999999999999999" (by decide) (by decide)).trans (by decide)
  · exact (h.2.2.2.2.1 "-99999999999999999999" (by decide) (by decide)).trans (by decide)
  · exact (h.2.2.2.2.2 "7200" (by decide) (by decide) (by decide)).trans (by decide)

theorem suffix_singleton {a : Char} {l : List Char} (h : l <:+ [a]) : l = [] ∨ l = [a] := by
  rcases h with ⟨t, ht⟩
  cases t with
  | nil => right; simpa using ht
  | cons x xs =>
    left
    have hlen := congrArg List.length ht
    simp only [List.length_append, List.length_cons, List.length_nil] at hlen
    have hl : l.length = 0 := by omega
    exact List.length_eq_zero.mp hl

theorem trimSuffix_self (s : String) : trimSuffix s s = "" := by
  apply stringDataEq
  show trimSuffixL s.data s.data = ("" : String).data
  rw [trimSuffixL_self]

theorem trimSuffix_at_sign (z : String) :
    trimSuffix "@" z = "@" ∨ trimSuffix "@" z = "" := by
  by_cases hs : z.data <:+ ("@" : String).data
  · rcases suffix_singleton hs with hz | hz
    · left
      apply stringDataEq
      show trimSuffixL ("@" : String).data z.data = ("@" : String).data
      unfold trimSuffixL
      rw [if_pos hs, hz]
      rfl
    · right
      apply stringDataEq
      show trimSuffixL ("@" : String).data z.data = ("" : String).data
      unfold trimSuffixL
      rw [if_pos hs, hz]
      rfl
  · left
    apply stringDataEq
    show trimSuffixL ("@" : String).data z.data = ("@" : String).data
    exact trimSuffixL_of_not_suffix hs

/-- C7: the relative-name computation maps the empty name, the apex
marker `@`, and the zone name itself to `@`, and maps `test.<zone>.` to
`test`; in general it strips one trailing dot from the record name,
computes the portion relative to the zone apex, and normalizes an empty
result to `@`. -/
theorem C7_generateRecordSetName_spec :
    (∀ zone : String, generateRecordSetName "" zone = "@") ∧
    (∀ zone : String, generateRecordSetName "@" zone = "@") ∧
    (∀ zone : String, generateRecordSetName zone zone = "@") ∧
    (∀ zone : String,
      generateRecordSetName ("test." ++ trimSuffix zone "." ++ ".") zone = "test") ∧
    (∀ name zone : String, generateRecordSetName name zone =
      if RelativeName (trimSuffix name "." ++ ".") zone = "" then "@"
      else RelativeName (trimSuffix name "." ++ ".") zone) := by
  refine ⟨?_, ?_, ?_, ?_, ?_⟩
  · intro zone
    have h1 : trimSuffix "" "." ++ "." = "." := by decide
    have h2 : trimSuffix "." "." = "" := by decide
    have h3 : trimSuffix "" (trimSuffix zone ".") = "" := trimSuffix_nil_left _
    have h4 : trimSuffix "" "." = "" := by decide
    simp [generateRecordSetName, RelativeName, h1, h2, h3, h4]
  · intro zone
    have h1 : trimSuffix "@" "." ++ "." = "@." := by decide
    have h2 : trimSuffix "@." "." = "@" := by decide
    rcases trimSuffix_at_sign (trimSuffix zone ".") with ht | ht
    · have h3 : trimSuffix "@" "." = "@" := by decide
      simp [generateRecordSetName, RelativeName, h1, h2, ht, h3]
    · have h3 : trimSuffix "" "." = "" := by decide
      simp [generateRecordSetName, RelativeName, h1, h2, ht, h3]
  · intro zone
    have h1 : trimSuffix (trimSuffix zone "." ++ ".") "." = trimSuffix zone "." :=
      trimSuffix_append _ "."
    have h2 : trimSuffix (trimSuffix zone ".") (trimSuffix zone ".") = "" :=
      trimSuffix_self _
    have h3 : trimSuffix "" "." = "" := by decide
    simp [generateRecordSetName, RelativeName, h1, h2, h3]
  · intro zone
    have h0 : trimSuffix ("test." ++ trimSuffix zone "." ++ ".") "." =
        "test." ++ trimSuffix zone "." := trimSuffix_append _ "."
    have h2 : trimSuffix ("test." ++ trimSuffix zone ".") (trimSuffix zone ".") = "test." :=
      trimSuffix_append "test." _
    have h3 : trimSuffix "test." "." = "test" := by decide
    simp [generateRecordSetName, RelativeName, h0, h2, h3]
  · intro name zone
    rfl

/-- C8 (amended): every type string outside the ten supported kinds fails
the type-name mapping and the Azure-to-normalized converter with the
TypeError naming the offending type; the normalized-to-Azure converter
likewise fails with the TypeError naming the type for a generic record
whose uppercased type tag is also none of the specially-treated kinds —
but a tag whose uppercase form is PTR or SOA (e.g. `ptr`), though outside
the ten exact-match kinds, is accepted case-insensitively by that
converter rather than rejected. -/
theorem C8_unsupported_type_errors {IP : Type} (c : NetipCodec IP) (t : String)
    (h : t ∉ supportedTypeNames) :
    convertStringToRecordType t = .error ("the type " ++ t ++ " cannot be interpreted") ∧
    (∀ (nm et : Option String) (props : RecordSetProperties),
      convertAzureRecordSetsToLibdnsRecords c
        [{ name := nm, typ := some (typeQual ++ t), etag := et, properties := props }] =
        ([], some ("the type " ++ t ++ " cannot be interpreted"))) ∧
    (goToUpper t ∉ libdnsSpecialKinds →
      ∀ (nm data : String) (ttl : Int),
        convertLibdnsRecordToAzureRecordSet c (.rr nm t ttl data) =
          .error ("the type " ++ t ++ " cannot be interpreted")) := by
  simp only [supportedTypeNames, List.mem_cons, List.not_mem_nil, or_false, not_or] at h
  obtain ⟨hA, hAAAA, hCAA, hCNAME, hMX, hNS, hPTR, hSOA, hSRV, hTXT⟩ := h
  refine ⟨?_, ?_, ?_⟩
  · simp [convertStringToRecordType, hA, hAAAA, hCAA, hCNAME, hMX, hNS, hPTR, hSOA, hSRV, hTXT]
  · intro nm et props
    simp [convertAzureRecordSetsToLibdnsRecords, convertSet, goTrimPre_append,
      hA, hAAAA, hCAA, hCNAME, hMX, hNS, hPTR, hSOA, hSRV, hTXT]
  · intro hup nm data ttl
    simp only [libdnsSpecialKinds, List.mem_cons, List.not_mem_nil, or_false, not_or] at hup
    obtain ⟨u1, u2, u3, u4, u5, u6, u7, u8, u9, u10, u11, u12⟩ := hup
    simp [convertLibdnsRecordToAzureRecordSet, RRparse, u8, u9]

/-- C8 counterexample: the type string `ptr` is outside the ten supported
kinds, yet the normalized-to-Azure converter accepts it — the Go code
upper-cases the generic RR tag before matching — and builds a PTR record
set instead of failing with a TypeError naming it. -/
theorem C8_lowercase_ptr_counterexample :
    ("ptr" : String) ∉ supportedTypeNames ∧
    convertLibdnsRecordToAzureRecordSet witCodec
      (.rr "x" "ptr" (30 * 1000000000) "hoge.example.com") =
      .ok { properties := { ttl := 30, ptrRecords := [⟨"hoge.example.com"⟩] } } := by
  constructor
  · decide
  · decide

/-- C8 witness: the three TypeErrors at the concrete unsupported type
string `ERR`. -/
theorem C8_unsupported_type_errors_witness :
    convertStringToRecordType "ERR" = .error "the type ERR cannot be interpreted" ∧
    convertAzureRecordSetsToLibdnsRecords witCodec [errSet] =
      ([], some "the type ERR cannot be interpreted") ∧
    convertLibdnsRecordToAzureRecordSet witCodec (.rr "x" "ERR" 0 "data") =
      .error "the type ERR cannot be interpreted" := by
  have h := C8_unsupported_type_errors witCodec "ERR" (by decide)
  refine ⟨h.1.trans (by decide), ?_, ?_⟩
  · exact (h.2.1 none none { ttl := 0 }).trans (by decide)
  · exact (h.2.2 (by decide) "x" "data" 0).trans (by decide)

/-- C9: each operation behaves identically whether the zone is supplied
with or without its trailing dot: for any zone with no trailing dot,
running `getRecords`, `createRecord`, `updateRecord` or `deleteRecord` on
`zone ++ "."` issues exactly the same remote calls — same zone name,
same relative record-set name, same headers — and returns the same
result as running it on `zone`, for every record and every oracle. -/
theorem C9_zone_trailing_dot_invariance {IP : Type} (c : NetipCodec IP) (p : Provider)
    (b : AzureBackend) (zone : String) (record : LibdnsRecord IP)
    (h : ¬ (['.'] <:+ zone.data)) :
    getRecords c p b (zone ++ ".") = getRecords c p b zone ∧
    createRecord c p b (zone ++ ".") record = createRecord c p b zone record ∧
    updateRecord c p b (zone ++ ".") record = updateRecord c p b zone record ∧
    deleteRecord c p b (zone ++ ".") record = deleteRecord c p b zone record := by
  have h1 : trimSuffix (zone ++ ".") "." = zone := trimSuffix_append zone "."
  have h2 : trimSuffix zone "." = zone := by
    apply stringDataEq
    show trimSuffixL zone.data ("." : String).data = zone.data
    exact trimSuffixL_of_not_suffix h
  have h3 : ∀ n, generateRecordSetName n (zone ++ ".") = generateRecordSetName n zone := by
    intro n
    simp [generateRecordSetName, RelativeName, h1, h2]
  refine ⟨?_, ?_, ?_, ?_⟩ <;>
    simp [getRecords, createRecord, updateRecord, deleteRecord, createOrUpdateRecord,
      h1, h2, h3]

/-- C9 witness: the invariance at the concrete zone `example.com`, a
concrete record and the all-success oracle. -/
theorem C9_zone_trailing_dot_invariance_witness :
    getRecords witCodec witProvider okBackend ("example.com" ++ ".") =
      getRecords witCodec witProvider okBackend "example.com" ∧
    createRecord witCodec witProvider okBackend ("example.com" ++ ".") libdnsFakeTXT =
      createRecord witCodec witProvider okBackend "example.com" libdnsFakeTXT ∧
    updateRecord witCodec witProvider okBackend ("example.com" ++ ".") libdnsFakeTXT =
      updateRecord witCodec witProvider okBackend "example.com" libdnsFakeTXT ∧
    deleteRecord witCodec witProvider okBackend ("example.com" ++ ".") libdnsFakeTXT =
      deleteRecord witCodec witProvider okBackend "example.com" libdnsFakeTXT :=
  C9_zone_trailing_dot_invariance witCodec witProvider okBackend "example.com" libdnsFakeTXT
    (by decide)
